import Mathlib

/-!
Shallow embedding of the terraform-provider-todo repository.

The repository is a Terraform provider plugin with three source files:
`provider.go` (provider configuration, builds the shared API client),
a todo resource (Create, Read, Update, Delete, ImportState) and a todos
data source (bulk Read).  The Terraform plugin framework values
(`types.String`, `types.Bool`) are three-state: null, unknown, or a known
value; `ValueString` and `ValueBool` return the zero value ("" and false)
on null or unknown.  The remote todo API client (package
`github.com/sudomateo/todo/todo`, an external dependency) is modelled as a
function parameter returning `Except String Todo`; each operation embeds
as a pure function from its inputs to a response recording the request it
issued, the diagnostics it added, and the state it wrote (`none` when the
operation returned without writing state).  The Go client renders the UUID
id and the two timestamps through their `String()` methods before the
provider stores them, so they are embedded here as opaque strings.
-/

namespace TerraformTodo

/-- A Terraform framework string attribute value: null, unknown, or known. -/
inductive TFString where
  | null
  | unknown
  | value (s : String)
  deriving DecidableEq

/-- Embeds `types.String.IsNull`. -/
def TFString.isNull : TFString → Bool
  | .null => true
  | _ => false

/-- Embeds `types.String.IsUnknown`. -/
def TFString.isUnknown : TFString → Bool
  | .unknown => true
  | _ => false

/-- Embeds `types.String.ValueString`: the known value, or "" on null/unknown. -/
def TFString.valueString : TFString → String
  | .value s => s
  | _ => ""

/-- A Terraform framework bool attribute value: null, unknown, or known. -/
inductive TFBool where
  | null
  | unknown
  | value (b : Bool)
  deriving DecidableEq

/-- Embeds `types.Bool.IsNull`. -/
def TFBool.isNull : TFBool → Bool
  | .null => true
  | _ => false

/-- Embeds `types.Bool.ValueBool`: the known value, or false on null/unknown. -/
def TFBool.valueBool : TFBool → Bool
  | .value b => b
  | _ => false

/-- A diagnostic added through `AddError` or `AddAttributeError`; for the
latter, `attrPath` records the attribute path (`path.Root(...)`). -/
structure Diagnostic where
  attrPath : Option String
  summary : String
  detail : String
  deriving DecidableEq

/-- The todo API client handle produced by `todo.NewClient(host)`. -/
structure Client where
  host : String
  deriving DecidableEq

/-- Embeds `todoProviderModel`: the provider schema has the single optional
attribute `host`. -/
structure todoProviderModel where
  Host : TFString
  deriving DecidableEq

/-- The outcome of `todoProvider.Configure`: the diagnostics added, the
client exposed through `resp.DataSourceData` / `resp.ResourceData` (none
when Configure returned early), and, for reasoning about the call to
`todo.NewClient`, the host argument that call received (none when the call
was never reached). -/
structure ConfigureResponse where
  diagnostics : List Diagnostic
  clientData : Option Client
  newClientHost : Option String
  deriving DecidableEq

/-- The diagnostic added when the configured host value is unknown. -/
def unknownHostDiagnostic : Diagnostic :=
  { attrPath := some "host"
    summary := "Unknown todo API host"
    detail := "The provider cannot create the todo API client as there is an unknown configuration value for the todo API host. Either target apply the source of the value first, set the value statically in the configuration, or use the TODO_HOST environment variable." }

/-- The diagnostic added when the resolved host is the empty string. -/
def missingHostDiagnostic : Diagnostic :=
  { attrPath := some "host"
    summary := "Missing todo API host"
    detail := "The provider cannot create the todo API client as there is a missing or empty value for the todo API host. Set the host value in the configuration or use the TODO_HOST environment variable. If either is already set, ensure the value is not empty." }

/-- The diagnostic added when `todo.NewClient` returns an error. -/
def newClientErrorDiagnostic (e : String) : Diagnostic :=
  { attrPath := none
    summary := "Unable to create todo API client"
    detail := "An unexpected error occurred when creating the todo API client. If the error is not clear, please contact the provider developers. todo client error: " ++ e }

/-- Embeds `todoProvider.Configure`.  `envTodoHost` is the value of the
TODO_HOST environment variable ("" when unset, as `os.Getenv` returns);
`newClient` is the external `todo.NewClient`; `config` is the provider
configuration already decoded from `req.Config` (the decode step is part
of the host framework).  Mirrors the source control flow: unknown-host
check with early return, host resolution from the environment overridden
by a non-null configuration value, empty-host check with early return,
then the `todo.NewClient` call. -/
def todoProvider.Configure (envTodoHost : String)
    (newClient : String → Except String Client)
    (config : todoProviderModel) : ConfigureResponse :=
  if config.Host.isUnknown then
    { diagnostics := [unknownHostDiagnostic], clientData := none, newClientHost := none }
  else
    let host := if !config.Host.isNull then config.Host.valueString else envTodoHost
    if host = "" then
      { diagnostics := [missingHostDiagnostic], clientData := none, newClientHost := none }
    else
      match newClient host with
      | .error e =>
          { diagnostics := [newClientErrorDiagnostic e], clientData := none,
            newClientHost := some host }
      | .ok c =>
          { diagnostics := [], clientData := some c, newClientHost := some host }

/-- A diagnostic as `resp.Diagnostics.AddError(summary, detail)` builds it:
no attribute path. -/
def addError (summary detail : String) : Diagnostic :=
  { attrPath := none, summary := summary, detail := detail }

/-- A todo item as the provider consumes it from the API client: the Go
`todo.Todo` with `ID.String()`, `TimeCreated.String()` and
`TimeUpdated.String()` applied, which is the only way the provider reads
those fields. -/
structure Todo where
  id : String
  text : String
  priority : String
  completed : Bool
  timeCreated : String
  timeUpdated : String
  deriving DecidableEq

/-- Embeds the constant `todo.PriorityLow`. -/
def PriorityLow : String := "low"

/-- Embeds `todo.TodoCreateParams` as the provider populates it: exactly a
text and a priority field, nothing else. -/
structure TodoCreateParams where
  text : String
  priority : String
  deriving DecidableEq

/-- Embeds `todo.TodoUpdateParams`: three pointer fields (text, priority,
completed); a Go nil pointer is `none`. -/
structure TodoUpdateParams where
  text : Option String
  priority : Option String
  completed : Option Bool
  deriving DecidableEq

/-- Embeds `todoResourceModel`: the six schema attributes of the todo
resource. -/
structure todoResourceModel where
  ID : TFString
  Text : TFString
  Priority : TFString
  Completed : TFBool
  TimeCreated : TFString
  TimeUpdated : TFString
  deriving DecidableEq

/-- The request body `todoResource.Create` builds from the plan: the plan
text, and the plan priority defaulted to `PriorityLow` when its value
string is empty. -/
def todoResource.createParams (plan : todoResourceModel) : TodoCreateParams :=
  let priority := plan.Priority.valueString
  let priority := if priority = "" then PriorityLow else priority
  { text := plan.Text.valueString, priority := priority }

/-- The outcome of `todoResource.Create`: the request body sent to
`client.CreateTodo`, the diagnostics added, and the state written. -/
structure CreateResponse where
  request : TodoCreateParams
  diagnostics : List Diagnostic
  state : Option todoResourceModel
  deriving DecidableEq

/-- Embeds `todoResource.Create`.  `createTodo` is the external
`client.CreateTodo`; `plan` is the plan already decoded from `req.Plan`.
On API error an error diagnostic is added and no state is written; on
success every field of the plan is overwritten from the response and the
result is written as the new state. -/
def todoResource.Create (createTodo : TodoCreateParams → Except String Todo)
    (plan : todoResourceModel) : CreateResponse :=
  let params := todoResource.createParams plan
  match createTodo params with
  | .error e =>
      { request := params
        diagnostics := [addError "Error creating todo" ("Could not create todo, unexpected error: " ++ e)]
        state := none }
  | .ok td =>
      { request := params
        diagnostics := []
        state := some { plan with
          ID := .value td.id
          Text := .value td.text
          Priority := .value td.priority
          Completed := .value td.completed
          TimeCreated := .value td.timeCreated
          TimeUpdated := .value td.timeUpdated } }

/-- The outcome of `todoResource.Read`: the id passed to `client.GetTodo`,
the diagnostics added, and the state written. -/
structure ReadResponse where
  requestId : String
  diagnostics : List Diagnostic
  state : Option todoResourceModel
  deriving DecidableEq

/-- Embeds `todoResource.Read`.  `getTodo` is the external
`client.GetTodo`; `state` is the current state already decoded from
`req.State`.  On API error an error diagnostic is added and no state is
written; on success every field except ID is overwritten from the
response and the result is written as the new state. -/
def todoResource.Read (getTodo : String → Except String Todo)
    (state : todoResourceModel) : ReadResponse :=
  match getTodo state.ID.valueString with
  | .error e =>
      { requestId := state.ID.valueString
        diagnostics := [addError "Error reading todo" ("Could not read todo ID " ++ state.ID.valueString ++ ": " ++ e)]
        state := none }
  | .ok td =>
      { requestId := state.ID.valueString
        diagnostics := []
        state := some { state with
          Text := .value td.text
          Priority := .value td.priority
          Completed := .value td.completed
          TimeCreated := .value td.timeCreated
          TimeUpdated := .value td.timeUpdated } }

/-- The request body `todoResource.Update` builds from the plan: pointers
to the value strings of text and priority and the value bool of completed,
all three always present. -/
def todoResource.updateParams (plan : todoResourceModel) : TodoUpdateParams :=
  { text := some plan.Text.valueString
    priority := some plan.Priority.valueString
    completed := some plan.Completed.valueBool }

/-- The outcome of `todoResource.Update`: the id and request body passed
to `client.UpdateTodo`, the diagnostics added, and the state written. -/
structure UpdateResponse where
  requestId : String
  request : TodoUpdateParams
  diagnostics : List Diagnostic
  state : Option todoResourceModel
  deriving DecidableEq

/-- Embeds `todoResource.Update`.  `updateTodo` is the external
`client.UpdateTodo`; `plan` is the plan already decoded from `req.Plan`.
On API error an error diagnostic is added and no state is written; on
success every field except ID is overwritten from the response and the
result is written as the new state. -/
def todoResource.Update (updateTodo : String → TodoUpdateParams → Except String Todo)
    (plan : todoResourceModel) : UpdateResponse :=
  let params := todoResource.updateParams plan
  match updateTodo plan.ID.valueString params with
  | .error e =>
      { requestId := plan.ID.valueString
        request := params
        diagnostics := [addError "Error updating todo" ("Could not update todo, unexpected error: " ++ e)]
        state := none }
  | .ok td =>
      { requestId := plan.ID.valueString
        request := params
        diagnostics := []
        state := some { plan with
          Text := .value td.text
          Priority := .value td.priority
          Completed := .value td.completed
          TimeCreated := .value td.timeCreated
          TimeUpdated := .value td.timeUpdated } }

/-- Embeds `todosModel`, one element of the data source list. -/
structure todosModel where
  ID : TFString
  Text : TFString
  Priority : TFString
  Completed : TFBool
  TimeCreated : TFString
  TimeUpdated : TFString
  deriving DecidableEq

/-- Embeds `todosDataSourceModel`: the data source state, a result-set id
plus the list of items. -/
structure todosDataSourceModel where
  ID : TFString
  Todos : List todosModel
  deriving DecidableEq

/-- The constant placeholder id the data source assigns to the result set. -/
def todosIdPlaceholder : String := "todos_id_placeholder"

/-- The per-item mapping the data source Read loop applies: each API item
becomes a `todosModel` with every field a known value. -/
def todosDataSource.mapTodo (td : Todo) : todosModel :=
  { ID := .value td.id
    Text := .value td.text
    Priority := .value td.priority
    Completed := .value td.completed
    TimeCreated := .value td.timeCreated
    TimeUpdated := .value td.timeUpdated }

/-- The outcome of `todosDataSource.Read`: the diagnostics added and the
state written. -/
structure DataSourceReadResponse where
  diagnostics : List Diagnostic
  state : Option todosDataSourceModel
  deriving DecidableEq

/-- Embeds `todosDataSource.Read`.  `listTodos` is the result of the
external `client.ListTodos()`.  On API error an error diagnostic is added
and no state is written; on success the items are mapped in order (the Go
loop appends `mapTodo` of each element to an initially empty slice, which
is `List.map`), the result-set id is set to the placeholder constant, and
that model is written as the state. -/
def todosDataSource.Read (listTodos : Except String (List Todo)) :
    DataSourceReadResponse :=
  match listTodos with
  | .error e =>
      { diagnostics := [addError "Unable to read todos" e]
        state := none }
  | .ok todos =>
      { diagnostics := []
        state := some { ID := .value todosIdPlaceholder,
                        Todos := todos.map todosDataSource.mapTodo } }

/-- A sample plan with text set and everything else unset, as a fresh
create plan looks. -/
def planUnset : todoResourceModel :=
  { ID := TFString.null
    Text := TFString.value "buy milk"
    Priority := TFString.null
    Completed := TFBool.null
    TimeCreated := TFString.null
    TimeUpdated := TFString.null }

/-- A sample plan whose priority is explicitly the empty string. -/
def planEmptyPriority : todoResourceModel :=
  { planUnset with Priority := TFString.value "" }

/-- A sample plan with a set priority. -/
def planHigh : todoResourceModel :=
  { ID := TFString.null
    Text := TFString.value "walk dog"
    Priority := TFString.value "high"
    Completed := TFBool.null
    TimeCreated := TFString.null
    TimeUpdated := TFString.null }

/-- A sample fully known state, as it looks after a create. -/
def stateKnown : todoResourceModel :=
  { ID := TFString.value "42"
    Text := TFString.value "buy milk"
    Priority := TFString.value "low"
    Completed := TFBool.value false
    TimeCreated := TFString.value "c0"
    TimeUpdated := TFString.value "u0" }

/-- A sample API create endpoint that echoes the submitted text and
priority and assigns id and timestamps. -/
def echoCreate : TodoCreateParams → Except String Todo := fun p =>
  Except.ok
    { id := "7"
      text := p.text
      priority := p.priority
      completed := false
      timeCreated := "c1"
      timeUpdated := "u1" }

/-- A sample todo item as a server returns it. -/
def todoSample : Todo :=
  { id := "42"
    text := "buy milk"
    priority := "high"
    completed := true
    timeCreated := "c0"
    timeUpdated := "u1" }

/-- A sample `todo.NewClient` that always succeeds. -/
def okNewClient : String → Except String Client := fun h => Except.ok { host := h }

/-- Claim C2: for every provider configuration in which the configured
host is unknown, or in which neither the configured host value nor the
environment variable yields a non-empty string, Configure adds a
configuration error diagnostic (the unknown-host or missing-host one) and
returns without constructing an API client; and no client is ever
constructed with an empty host, since `todo.NewClient` is never reached
with the empty string as its argument. -/
theorem configure_rejects_missing_or_unknown_host (env : String)
    (newClient : String → Except String Client) (config : todoProviderModel) :
    ((config.Host.isUnknown = true ∨
        (¬(config.Host.isNull = false ∧ config.Host.valueString ≠ "") ∧ env = "")) →
      (todoProvider.Configure env newClient config).clientData = none ∧
      (todoProvider.Configure env newClient config).newClientHost = none ∧
      (unknownHostDiagnostic ∈ (todoProvider.Configure env newClient config).diagnostics ∨
        missingHostDiagnostic ∈ (todoProvider.Configure env newClient config).diagnostics)) ∧
    (todoProvider.Configure env newClient config).newClientHost ≠ some "" := by
  cases hc : config.Host with
  | null =>
      by_cases he : env = "" <;>
        simp [todoProvider.Configure, hc, TFString.isUnknown, TFString.isNull,
          TFString.valueString, he]
      cases hnc : newClient env <;> simp [hnc, he]
  | unknown =>
      simp [todoProvider.Configure, hc, TFString.isUnknown]
  | value s =>
      by_cases hs : s = "" <;>
        simp [todoProvider.Configure, hc, TFString.isUnknown, TFString.isNull,
          TFString.valueString, hs]
      cases hnc : newClient s <;> simp [hnc, hs]

/-- Claim C2 witness: with no environment variable value and a null
configured host, Configure constructs no client, never calls
`todo.NewClient`, and reports the missing-host error. -/
theorem configure_rejects_missing_or_unknown_host_witness :
    (todoProvider.Configure "" okNewClient { Host := TFString.null }).clientData = none ∧
    (todoProvider.Configure "" okNewClient { Host := TFString.null }).newClientHost = none ∧
    (unknownHostDiagnostic ∈
        (todoProvider.Configure "" okNewClient { Host := TFString.null }).diagnostics ∨
      missingHostDiagnostic ∈
        (todoProvider.Configure "" okNewClient { Host := TFString.null }).diagnostics) :=
  (configure_rejects_missing_or_unknown_host "" okNewClient { Host := TFString.null }).1
    (Or.inr ⟨by simp [TFString.isNull], rfl⟩)

/-- Claim C8: whenever Configure reaches client construction with host
`h`, that host is the configured value when the configuration is set
(non-null), and the environment variable value otherwise; the configured
value always takes precedence. -/
theorem configure_host_precedence (env : String)
    (newClient : String → Except String Client) (config : todoProviderModel)
    (h : String)
    (hcall : (todoProvider.Configure env newClient config).newClientHost = some h) :
    (config.Host.isNull = false → h = config.Host.valueString) ∧
    (config.Host.isNull = true → h = env) := by
  cases hc : config.Host with
  | null =>
      rw [todoProvider.Configure] at hcall
      simp only [hc, TFString.isUnknown, TFString.isNull, TFString.valueString,
        Bool.not_true, if_false, Bool.false_eq_true, ite_false] at hcall ⊢
      refine ⟨fun hfalse => by simp at hfalse, fun _ => ?_⟩
      by_cases he : env = "" <;> simp [he] at hcall
      · cases hnc : newClient env <;> simp [hnc] at hcall
        all_goals exact hcall.symm
  | unknown =>
      rw [todoProvider.Configure] at hcall
      simp [hc, TFString.isUnknown] at hcall
  | value s =>
      rw [todoProvider.Configure] at hcall
      simp only [hc, TFString.isUnknown, TFString.isNull, TFString.valueString] at hcall ⊢
      refine ⟨fun _ => ?_, fun htrue => by simp at htrue⟩
      by_cases hs : s = "" <;> simp [hs] at hcall
      · cases hnc : newClient s <;> simp [hnc] at hcall
        all_goals exact hcall.symm

/-- Claim C8 witness: with a configured host set to a value and a
different environment value, the client host is the configured value. -/
theorem configure_host_precedence_witness :
    "http://cfg" = ({ Host := TFString.value "http://cfg" } : todoProviderModel).Host.valueString :=
  (configure_host_precedence "http://env" okNewClient
      { Host := TFString.value "http://cfg" } "http://cfg"
      (by simp [todoProvider.Configure, okNewClient, TFString.isUnknown, TFString.isNull,
        TFString.valueString])).1
    (by simp [TFString.isNull])

/-- Claim C9: a present-but-empty configured host masks the environment
fallback: even when the environment variable is non-empty, Configure adds
exactly the missing-host error, constructs no client and never calls
`todo.NewClient`. -/
theorem empty_config_host_masks_env (env : String)
    (newClient : String → Except String Client) (_he : env ≠ "") :
    (todoProvider.Configure env newClient { Host := TFString.value "" }).diagnostics
      = [missingHostDiagnostic] ∧
    (todoProvider.Configure env newClient { Host := TFString.value "" }).clientData = none ∧
    (todoProvider.Configure env newClient { Host := TFString.value "" }).newClientHost = none := by
  simp [todoProvider.Configure, TFString.isUnknown, TFString.isNull, TFString.valueString]

/-- Claim C9 witness: concrete non-empty environment value, configured
host explicitly set to the empty string. -/
theorem empty_config_host_masks_env_witness :
    (todoProvider.Configure "http://env" okNewClient
        { Host := TFString.value "" }).diagnostics = [missingHostDiagnostic] ∧
    (todoProvider.Configure "http://env" okNewClient
        { Host := TFString.value "" }).clientData = none ∧
    (todoProvider.Configure "http://env" okNewClient
        { Host := TFString.value "" }).newClientHost = none :=
  empty_config_host_masks_env "http://env" okNewClient (by decide)

/-- Claim C3: for every Create, Read or Update invocation whose API call
returns an error, the operation adds exactly one error diagnostic carrying
the underlying error text and writes no state, so the incoming state is
unchanged on failure. -/
theorem api_error_adds_diagnostic_and_writes_no_state
    (createTodo : TodoCreateParams → Except String Todo)
    (getTodo : String → Except String Todo)
    (updateTodo : String → TodoUpdateParams → Except String Todo)
    (plan st : todoResourceModel) (e1 e2 e3 : String) :
    (createTodo (todoResource.createParams plan) = .error e1 →
      (todoResource.Create createTodo plan).state = none ∧
      (todoResource.Create createTodo plan).diagnostics
        = [addError "Error creating todo" ("Could not create todo, unexpected error: " ++ e1)]) ∧
    (getTodo st.ID.valueString = .error e2 →
      (todoResource.Read getTodo st).state = none ∧
      (todoResource.Read getTodo st).diagnostics
        = [addError "Error reading todo"
            ("Could not read todo ID " ++ st.ID.valueString ++ ": " ++ e2)]) ∧
    (updateTodo plan.ID.valueString (todoResource.updateParams plan) = .error e3 →
      (todoResource.Update updateTodo plan).state = none ∧
      (todoResource.Update updateTodo plan).diagnostics
        = [addError "Error updating todo" ("Could not update todo, unexpected error: " ++ e3)]) := by
  refine ⟨fun h => ?_, fun h => ?_, fun h => ?_⟩ <;>
    simp [todoResource.Create, todoResource.Read, todoResource.Update, h]

/-- Claim C3 witness: a concrete plan and state against an API that fails
every call. -/
theorem api_error_adds_diagnostic_and_writes_no_state_witness :
    (todoResource.Create (fun _ => Except.error "boom") planUnset).state = none ∧
    (todoResource.Read (fun _ => Except.error "gone") stateKnown).state = none ∧
    (todoResource.Update (fun _ _ => Except.error "nope") stateKnown).state = none := by
  have h := api_error_adds_diagnostic_and_writes_no_state
    (fun _ => Except.error "boom") (fun _ => Except.error "gone")
    (fun _ _ => Except.error "nope") stateKnown stateKnown "boom" "gone" "nope"
  have h2 := api_error_adds_diagnostic_and_writes_no_state
    (fun _ => Except.error "boom") (fun _ => Except.error "gone")
    (fun _ _ => Except.error "nope") planUnset stateKnown "boom" "gone" "nope"
  exact ⟨(h2.1 rfl).1, (h.2.1 rfl).1, (h.2.2 rfl).1⟩

/-- Claim C4: every create request body carries the plan text and the plan
priority, with the priority equal to "low" whenever the plan priority is
unset (null or unknown); the `TodoCreateParams` body type has exactly the
two fields text and priority, so no id, completed or timestamp is sent. -/
theorem create_request_is_text_and_priority
    (createTodo : TodoCreateParams → Except String Todo)
    (plan : todoResourceModel) :
    (todoResource.Create createTodo plan).request.text = plan.Text.valueString ∧
    ((plan.Priority = TFString.null ∨ plan.Priority = TFString.unknown) →
      (todoResource.Create createTodo plan).request.priority = PriorityLow) ∧
    (∀ s, plan.Priority = TFString.value s → s ≠ "" →
      (todoResource.Create createTodo plan).request.priority = s) := by
  have hreq : (todoResource.Create createTodo plan).request = todoResource.createParams plan := by
    cases h : createTodo (todoResource.createParams plan) <;>
      simp [todoResource.Create, h]
  rw [hreq]
  refine ⟨rfl, fun h => ?_, fun s hs hne => ?_⟩
  · rcases h with h | h <;>
      simp [todoResource.createParams, h, TFString.valueString]
  · simp [todoResource.createParams, hs, TFString.valueString, hne]

/-- Claim C4 witness: a concrete plan with null priority produces the
request body with the plan text and priority "low". -/
theorem create_request_is_text_and_priority_witness :
    (todoResource.Create echoCreate planUnset).request.priority = PriorityLow :=
  (create_request_is_text_and_priority echoCreate planUnset).2.1 (Or.inl rfl)

/-- Claim C5: on a successful Create the written state is exactly the API
response mapped field by field (id, text, priority, completed,
time_created, time_updated, all known values), so the stored id and
timestamps are the server-assigned ones; and when the server echoes the
submitted text and priority, the stored text and priority equal the
submitted request values. -/
theorem create_success_stores_response
    (createTodo : TodoCreateParams → Except String Todo)
    (plan : todoResourceModel) (td : Todo)
    (h : createTodo (todoResource.createParams plan) = .ok td) :
    (todoResource.Create createTodo plan).state = some
      { ID := TFString.value td.id, Text := TFString.value td.text,
        Priority := TFString.value td.priority, Completed := TFBool.value td.completed,
        TimeCreated := TFString.value td.timeCreated,
        TimeUpdated := TFString.value td.timeUpdated } ∧
    (td.text = (todoResource.Create createTodo plan).request.text →
      td.priority = (todoResource.Create createTodo plan).request.priority →
      ∃ st, (todoResource.Create createTodo plan).state = some st ∧
        st.Text = TFString.value ((todoResource.Create createTodo plan).request.text) ∧
        st.Priority = TFString.value ((todoResource.Create createTodo plan).request.priority)) := by
  have hstate : (todoResource.Create createTodo plan).state = some
      { ID := TFString.value td.id, Text := TFString.value td.text,
        Priority := TFString.value td.priority, Completed := TFBool.value td.completed,
        TimeCreated := TFString.value td.timeCreated,
        TimeUpdated := TFString.value td.timeUpdated } := by
    simp [todoResource.Create, h]
  refine ⟨hstate, fun ht hp => ⟨_, hstate, ?_, ?_⟩⟩
  · rw [← ht]
  · rw [← hp]

/-- Claim C5 witness: a concrete plan against an echoing server; the
stored state is the full response record. -/
theorem create_success_stores_response_witness :
    (todoResource.Create echoCreate planHigh).state = some
      { ID := TFString.value "7"
        Text := TFString.value "walk dog"
        Priority := TFString.value "high"
        Completed := TFBool.value false
        TimeCreated := TFString.value "c1"
        TimeUpdated := TFString.value "u1" } :=
  (create_success_stores_response echoCreate planHigh
      { id := "7"
        text := "walk dog"
        priority := "high"
        completed := false
        timeCreated := "c1"
        timeUpdated := "u1" }
      rfl).1

/-- Claim C10: no create request ever carries an empty priority, and a
priority explicitly set to the empty string is treated the same as an
unset one: both produce the default "low". -/
theorem create_priority_never_empty
    (createTodo : TodoCreateParams → Except String Todo)
    (plan : todoResourceModel) :
    (todoResource.Create createTodo plan).request.priority ≠ "" ∧
    (plan.Priority = TFString.value "" →
      (todoResource.Create createTodo plan).request.priority = PriorityLow) ∧
    (plan.Priority = TFString.null →
      (todoResource.Create createTodo plan).request.priority = PriorityLow) := by
  have hreq : (todoResource.Create createTodo plan).request = todoResource.createParams plan := by
    cases h : createTodo (todoResource.createParams plan) <;>
      simp [todoResource.Create, h]
  rw [hreq]
  refine ⟨?_, fun h => ?_, fun h => ?_⟩
  · by_cases hp : plan.Priority.valueString = "" <;>
      simp [todoResource.createParams, hp, PriorityLow]
  · simp [todoResource.createParams, h, TFString.valueString]
  · simp [todoResource.createParams, h, TFString.valueString]

/-- Claim C10 witness: a plan with priority explicitly set to the empty
string submits priority "low". -/
theorem create_priority_never_empty_witness :
    (todoResource.Create echoCreate planEmptyPriority).request.priority = PriorityLow :=
  (create_priority_never_empty echoCreate planEmptyPriority).2.1 rfl

/-- Claim C6: the identifier in state is immutable after creation: any
state written by Read keeps the incoming state id and any state written by
Update keeps the plan id; and the request bodies built by Create and
Update are functions of text, priority (and, for Update, completed) only,
so no id or timestamp ever enters a request body. -/
theorem id_immutable_and_bodies_exclude_id_and_timestamps
    (getTodo : String → Except String Todo)
    (updateTodo : String → TodoUpdateParams → Except String Todo)
    (st plan : todoResourceModel) :
    (∀ r, (todoResource.Read getTodo st).state = some r → r.ID = st.ID) ∧
    (∀ r, (todoResource.Update updateTodo plan).state = some r → r.ID = plan.ID) ∧
    (∀ q : todoResourceModel, q.Text = plan.Text → q.Priority = plan.Priority →
      todoResource.createParams q = todoResource.createParams plan) ∧
    (∀ q : todoResourceModel, q.Text = plan.Text → q.Priority = plan.Priority →
      q.Completed = plan.Completed →
      todoResource.updateParams q = todoResource.updateParams plan) := by
  refine ⟨?_, ?_, ?_, ?_⟩
  · intro r hr
    cases hg : getTodo st.ID.valueString <;> simp [todoResource.Read, hg] at hr
    rw [← hr]
  · intro r hr
    cases hu : updateTodo plan.ID.valueString (todoResource.updateParams plan) <;>
      simp [todoResource.Update, hu] at hr
    rw [← hr]
  · intro q ht hp
    simp [todoResource.createParams, ht, hp]
  · intro q ht hp hcb
    simp [todoResource.updateParams, ht, hp, hcb]

/-- Claim C6 witness: a Read of a concrete state against a server whose
item differs in every field still keeps the incoming id. -/
theorem id_immutable_and_bodies_exclude_id_and_timestamps_witness :
    ({ ID := TFString.value "42"
       Text := TFString.value "buy milk"
       Priority := TFString.value "high"
       Completed := TFBool.value true
       TimeCreated := TFString.value "c0"
       TimeUpdated := TFString.value "u1" } : todoResourceModel).ID = stateKnown.ID :=
  (id_immutable_and_bodies_exclude_id_and_timestamps
      (fun _ => Except.ok todoSample) (fun _ _ => Except.ok todoSample)
      stateKnown stateKnown).1
    { ID := TFString.value "42"
      Text := TFString.value "buy milk"
      Priority := TFString.value "high"
      Completed := TFBool.value true
      TimeCreated := TFString.value "c0"
      TimeUpdated := TFString.value "u1" } rfl

/-- Claim C7: on a successful list call the data source writes a state
whose result-set id is the constant placeholder and whose items are the
API list mapped element-wise, in order, into the item record shape; a
zero-item response yields the empty collection plus the placeholder. -/
theorem todos_read_maps_list_in_order
    (listTodos : Except String (List Todo)) (l : List Todo)
    (h : listTodos = .ok l) :
    ∃ m, (todosDataSource.Read listTodos).state = some m ∧
      m.ID = TFString.value todosIdPlaceholder ∧
      m.Todos.length = l.length ∧
      (∀ i : Nat, m.Todos[i]? = (l[i]?).map todosDataSource.mapTodo) ∧
      (l = [] → m.Todos = []) := by
  subst h
  refine ⟨{ ID := TFString.value todosIdPlaceholder, Todos := l.map todosDataSource.mapTodo },
    rfl, rfl, by simp, fun i => ?_, fun hl => by simp [hl]⟩
  simp [List.getElem?_map]

/-- Claim C7 witness: a one-item list response produces the placeholder id
and the mapped singleton list. -/
theorem todos_read_maps_list_in_order_witness :
    ∃ m, (todosDataSource.Read (Except.ok [todoSample])).state = some m ∧
      m.ID = TFString.value todosIdPlaceholder ∧
      m.Todos.length = [todoSample].length ∧
      (∀ i : Nat, m.Todos[i]? = ([todoSample][i]?).map todosDataSource.mapTodo) ∧
      ([todoSample] = [] → m.Todos = []) :=
  todos_read_maps_list_in_order (Except.ok [todoSample]) [todoSample] rfl

/-- Claim C1 counterexample: with priority and completed unset (null) in
the plan, the update request submits the empty string as the priority and
false as completed, so at this concrete input the submitted values are the
zero values, not the current effective values, and the submitted priority
is empty — refuting that the submission never contains an empty value. -/
theorem update_unset_priority_submits_empty :
    (todoResource.Update (fun _ _ => Except.error "unused") planUnset).request.priority
      = some "" ∧
    (todoResource.Update (fun _ _ => Except.error "unused") planUnset).request.completed
      = some false :=
  ⟨rfl, rfl⟩

/-- Claim C1 amended: every update request carries all three of text,
priority and completed as present (non-nil pointer) values, taken from the
plan by zero-value conversion; in particular an unset (null) priority is
submitted as the empty string and an unset completed as false, rather than
as the current effective values. -/
theorem update_request_always_carries_all_three
    (updateTodo : String → TodoUpdateParams → Except String Todo)
    (plan : todoResourceModel) :
    (todoResource.Update updateTodo plan).request.text = some plan.Text.valueString ∧
    (todoResource.Update updateTodo plan).request.priority = some plan.Priority.valueString ∧
    (todoResource.Update updateTodo plan).request.completed = some plan.Completed.valueBool ∧
    (plan.Priority = TFString.null →
      (todoResource.Update updateTodo plan).request.priority = some "") ∧
    (plan.Completed = TFBool.null →
      (todoResource.Update updateTodo plan).request.completed = some false) := by
  have hreq : (todoResource.Update updateTodo plan).request = todoResource.updateParams plan := by
    cases h : updateTodo plan.ID.valueString (todoResource.updateParams plan) <;>
      simp [todoResource.Update, h]
  rw [hreq]
  exact ⟨rfl, rfl, rfl,
    fun h => by simp [todoResource.updateParams, h, TFString.valueString],
    fun h => by simp [todoResource.updateParams, h, TFBool.valueBool]⟩

/-- Claim C1 amended witness: the concrete all-unset plan submits the
empty string priority and false completed. -/
theorem update_request_always_carries_all_three_witness :
    (todoResource.Update (fun _ _ => Except.ok todoSample) planUnset).request.priority
      = some "" ∧
    (todoResource.Update (fun _ _ => Except.ok todoSample) planUnset).request.completed
      = some false :=
  ⟨(update_request_always_carries_all_three (fun _ _ => Except.ok todoSample) planUnset).2.2.2.1
      rfl,
   (update_request_always_carries_all_three (fun _ _ => Except.ok todoSample) planUnset).2.2.2.2
      rfl⟩

end TerraformTodo
